import Mathlib

/-!
Verification of the pragma-sdk core module (pragma/core/types.py):
domain entities (Currency, Pair, DataType, PoolKey), enumeration
serialization (AggregationMode, RequestStatus), the network registry
tables (CHAIN_IDS and its inverse, RPC_URLS) and RPC-endpoint
resolution (get_rpc_url), together with the field-element codec the
entities use for string identifiers.

Modelling conventions:
- Python runtime values that flow through the polymorphic entity
  constructors are modelled by the inductive PyVal (int, str, bool,
  None, tuple, a DataTypes enum member, and an opaque object of any
  other type). Python strings are modelled as lists of character codes.
- isinstance(x, int) is true in Python for bool values as well (bool is
  a subclass of int); the embedding reflects that in each coercion.
- Python dicts built from string keys are modelled as association
  lists in insertion order; lookup takes the last binding for a key,
  matching dict overwrite semantics.
- Fallible constructors return Except PyError; a constructor whose
  source has no raise statement always returns Except.ok.
- random.randint is modelled as an injected function randint : Nat →
  Nat → Nat; its contract (randint a b lies in the interval from a to
  b, uniformly) is a property of the external random source and enters
  theorems as a hypothesis where needed.
-/

namespace Pragma

/-- Modelled from the spec: the Field-Element Codec (pragma/core/utils.py,
consumed by types.py but not part of the given sources) maps a short ASCII
identifier string to a fixed-width integer (felt) by packing its character
codes big-endian, one byte per character. Strings are modelled as lists of
character codes. -/
def str_to_felt (s : List Nat) : Nat :=
  s.foldl (fun acc c => acc * 256 + c) 0

/-- Modelled from the spec: the decoding direction of the Field-Element
Codec, unpacking the big-endian base-256 digits of a felt back into
character codes. -/
def felt_to_str (n : Nat) : List Nat :=
  if h : n = 0 then []
  else felt_to_str (n / 256) ++ [n % 256]
decreasing_by exact Nat.div_lt_self (Nat.pos_of_ne_zero h) (by norm_num)

/-- The DataTypes enumeration, built in the source with the functional Enum
API from the member-name list SPOT, FUTURE, OPTION; the auto-assigned member
values are 1, 2, 3. -/
inductive DataTypes where
  | SPOT
  | FUTURE
  | OPTION
  deriving DecidableEq

/-- The integer value Python auto-assigns to each DataTypes member. -/
def DataTypes.value : DataTypes → Nat
  | .SPOT => 1
  | .FUTURE => 2
  | .OPTION => 3

/-- A Python runtime value as it flows through the polymorphic entity
constructors: an int, a str (list of character codes), a bool, None, a
tuple (used by DataType.serialize), a DataTypes enum member, or an opaque
object of any other type. -/
inductive PyVal where
  | vInt : Int → PyVal
  | vStr : List Nat → PyVal
  | vBool : Bool → PyVal
  | vNone : PyVal
  | vTuple : PyVal → PyVal → PyVal
  | vDT : DataTypes → PyVal
  | vObj : PyVal
  deriving DecidableEq

/-- Python exceptions raised by the module: TypeError (bad pair_id type in
DataType), ValueError (invalid enum value in an Enum call), and the
module's ClientException carrying its message. -/
inductive PyError where
  | typeError : PyError
  | valueError : PyError
  | clientException : String → PyError
  deriving DecidableEq

/-- The string-to-felt coercion Currency.__init__ and Pair.__init__ apply
to an argument: a str is converted with str_to_felt, every other value is
kept verbatim (there is no isinstance check beyond str). -/
def coerceStrId : PyVal → PyVal
  | .vStr s => .vInt (str_to_felt s)
  | x => x

/-- The Currency entity: fields in source declaration order. The fields
hold whatever Currency.__init__ stored (Python enforces no field types). -/
structure Currency where
  id : PyVal
  decimals : PyVal
  is_abstract_currency : PyVal
  starknet_address : PyVal
  ethereum_address : PyVal
  deriving DecidableEq

/-- Currency.__init__: a str id is converted to its felt; an int (which in
Python includes bool) is_abstract_currency is coerced with bool(); a None
starknet_address or ethereum_address becomes 0. The source contains no
raise statement, so construction always returns ok. -/
def Currency.init (id_ decimals is_abstract_currency starknet_address
    ethereum_address : PyVal) : Except PyError Currency :=
  let id := coerceStrId id_
  let iac := match is_abstract_currency with
    | .vInt n => PyVal.vBool (n != 0)
    | .vBool b => PyVal.vBool b
    | x => x
  let sa := match starknet_address with
    | .vNone => PyVal.vInt 0
    | x => x
  let ea := match ethereum_address with
    | .vNone => PyVal.vInt 0
    | x => x
  Except.ok ⟨id, decimals, iac, sa, ea⟩

/-- Currency.serialize: the five fields in declaration order. -/
def Currency.serialize (c : Currency) : List PyVal :=
  [c.id, c.decimals, c.is_abstract_currency, c.starknet_address,
   c.ethereum_address]

/-- Currency.to_dict: the five fields keyed by their names, in declaration
order. -/
def Currency.to_dict (c : Currency) : List (String × PyVal) :=
  [("id", c.id),
   ("decimals", c.decimals),
   ("is_abstract_currency", c.is_abstract_currency),
   ("starknet_address", c.starknet_address),
   ("ethereum_address", c.ethereum_address)]

/-- The Pair entity: fields in source declaration order. -/
structure Pair where
  id : PyVal
  quote_currency_id : PyVal
  base_currency_id : PyVal
  deriving DecidableEq

/-- Pair.__init__: the same str-to-felt coercion on all three fields; no
raise statement. -/
def Pair.init (id_ quote_currency_id base_currency_id : PyVal) : Pair :=
  ⟨coerceStrId id_, coerceStrId quote_currency_id,
   coerceStrId base_currency_id⟩

/-- Pair.serialize: the three fields in declaration order. -/
def Pair.serialize (p : Pair) : List PyVal :=
  [p.id, p.quote_currency_id, p.base_currency_id]

/-- Pair.to_dict: the three fields keyed by their names. -/
def Pair.to_dict (p : Pair) : List (String × PyVal) :=
  [("id", p.id),
   ("quote_currency_id", p.quote_currency_id),
   ("base_currency_id", p.base_currency_id)]

/-- Python by-value lookup DataTypes(x): a member of the enum is returned
unchanged; the values 1, 2, 3 resolve to the members (a Python bool
hash-equals its int value, so True resolves like 1 and False like 0); any
other value - including a member-name string such as SPOT - raises
ValueError. -/
def DataTypes.call : PyVal → Except PyError DataTypes
  | .vDT d => .ok d
  | .vInt 1 => .ok .SPOT
  | .vInt 2 => .ok .FUTURE
  | .vInt 3 => .ok .OPTION
  | .vBool true => .ok .SPOT
  | _ => .error .valueError

/-- The DataType entity. pair_id holds what __init__ stored after its
check (a felt for a str argument, the argument itself for an int or bool);
expiration_timestamp is stored verbatim. -/
structure DataType where
  data_type : DataTypes
  pair_id : PyVal
  expiration_timestamp : PyVal
  deriving DecidableEq

/-- DataType.__init__: first the pair_id check (a str is converted to its
felt, an int - in Python including bool - is kept, anything else raises
TypeError), then the DataTypes(data_type) enum call, then the fields are
stored. -/
def DataType.init (data_type pair_id expiration_timestamp : PyVal) :
    Except PyError DataType := do
  let pid ← match pair_id with
    | .vStr s => Except.ok (PyVal.vInt (str_to_felt s))
    | .vInt n => Except.ok (PyVal.vInt n)
    | .vBool b => Except.ok (PyVal.vBool b)
    | _ => Except.error PyError.typeError
  let dt ← DataTypes.call data_type
  Except.ok ⟨dt, pid, expiration_timestamp⟩

/-- DataType.serialize: a one-key dict keyed SpotEntry for SPOT carrying
pair_id, a one-key dict keyed FutureEntry for FUTURE carrying the tuple
(pair_id, expiration_timestamp), and the empty dict otherwise (OPTION). -/
def DataType.serialize (d : DataType) : List (String × PyVal) :=
  match d.data_type with
  | .SPOT => [("SpotEntry", d.pair_id)]
  | .FUTURE => [("FutureEntry", .vTuple d.pair_id d.expiration_timestamp)]
  | .OPTION => []

/-- The AggregationMode enumeration with its member names. -/
inductive AggregationMode where
  | MEDIAN
  | AVERAGE
  | ERROR
  deriving DecidableEq

/-- The Python name attribute of each AggregationMode member. -/
def AggregationMode.name : AggregationMode → String
  | .MEDIAN => "MEDIAN"
  | .AVERAGE => "AVERAGE"
  | .ERROR => "ERROR"

/-- The Python value attribute of each AggregationMode member, as assigned
in the source. -/
def AggregationMode.value : AggregationMode → String
  | .MEDIAN => "Median"
  | .AVERAGE => "Mean"
  | .ERROR => "Error"

/-- AggregationMode.serialize: the one-key dict keyed by self.value with
None as payload. -/
def AggregationMode.serialize (m : AggregationMode) :
    List (String × PyVal) :=
  [(m.value, .vNone)]

/-- The RequestStatus enumeration with its member names. -/
inductive RequestStatus where
  | UNINITIALIZED
  | RECEIVED
  | FULFILLED
  | CANCELLED
  | OUT_OF_GAS
  deriving DecidableEq

/-- The Python name attribute of each RequestStatus member. -/
def RequestStatus.name : RequestStatus → String
  | .UNINITIALIZED => "UNINITIALIZED"
  | .RECEIVED => "RECEIVED"
  | .FULFILLED => "FULFILLED"
  | .CANCELLED => "CANCELLED"
  | .OUT_OF_GAS => "OUT_OF_GAS"

/-- The Python value attribute of each RequestStatus member, as assigned in
the source (equal to the name for every member). -/
def RequestStatus.value : RequestStatus → String
  | .UNINITIALIZED => "UNINITIALIZED"
  | .RECEIVED => "RECEIVED"
  | .FULFILLED => "FULFILLED"
  | .CANCELLED => "CANCELLED"
  | .OUT_OF_GAS => "OUT_OF_GAS"

/-- RequestStatus.serialize: the one-key dict keyed by self.value with None
as payload. -/
def RequestStatus.serialize (r : RequestStatus) : List (String × PyVal) :=
  [(r.value, .vNone)]

/-- The PoolKey entity: fields in source declaration order, annotated int
in the source. -/
structure PoolKey where
  token_0 : Int
  token_1 : Int
  fee : Int
  tick_spacing : Int
  extension : Int
  deriving DecidableEq

/-- PoolKey.__init__: fields stored verbatim; extension defaults to 0. -/
def PoolKey.init (token_0 token_1 fee tick_spacing extension : Int) :
    PoolKey :=
  ⟨token_0, token_1, fee, tick_spacing, extension⟩

/-- PoolKey.serialize: the five fields in declaration order. -/
def PoolKey.serialize (p : PoolKey) : List Int :=
  [p.token_0, p.token_1, p.fee, p.tick_spacing, p.extension]

/-- PoolKey.to_dict: the five fields keyed by their names. -/
def PoolKey.to_dict (p : PoolKey) : List (String × Int) :=
  [("token_0", p.token_0),
   ("token_1", p.token_1),
   ("fee", p.fee),
   ("tick_spacing", p.tick_spacing),
   ("extension", p.extension)]

/-- Network name constant. -/
def DEVNET : String := "devnet"

/-- Network name constant. -/
def TESTNET : String := "testnet"

/-- Network name constant. -/
def SEPOLIA : String := "sepolia"

/-- Network name constant. -/
def MAINNET : String := "mainnet"

/-- Network name constant. -/
def SHARINGAN : String := "sharingan"

/-- Network name constant. -/
def FORK_DEVNET : String := "fork_devnet"

/-- Network name constant. -/
def PRAGMA_TESTNET : String := "pragma_testnet"

/-- The seven supported network names, in the order the CHAIN_IDS table
writes them. -/
def supportedNetworks : List String :=
  [DEVNET, SHARINGAN, TESTNET, MAINNET, PRAGMA_TESTNET, FORK_DEVNET,
   SEPOLIA]

/-- Python dict lookup on an insertion-ordered association list: the last
binding for a key wins, matching dict overwrite semantics. -/
def pyDictGet {α β : Type} [DecidableEq α] (d : List (α × β)) (k : α) :
    Option β :=
  (d.reverse.find? fun p => p.1 = k).map Prod.snd

/-- The CHAIN_IDS table, entries in source order. -/
def CHAIN_IDS : List (String × Nat) :=
  [(DEVNET, 1536727068981429685321),
   (SHARINGAN, 1536727068981429685321),
   (TESTNET, 1536727068981429685321),
   (MAINNET, 23448594291968334),
   (PRAGMA_TESTNET, 8908953246943201047421899664489),
   (FORK_DEVNET, 1536727068981429685321),
   (SEPOLIA, 393402133025997798000961)]

/-- The inverse table, built by the dict comprehension over CHAIN_IDS
items in insertion order (so a repeated chain id is overwritten by the
later network). -/
def CHAIN_ID_TO_NETWORK : List (Nat × String) :=
  CHAIN_IDS.map fun p => (p.2, p.1)

/-- The RPC_URLS table: the pool of RPC URLs per pool-backed network. -/
def RPC_URLS : List (String × List String) :=
  [(MAINNET, ["https://starknet-mainnet.public.blastapi.io/rpc/v0_6"]),
   (TESTNET, ["https://starknet-testnet.public.blastapi.io/rpc/v0_6"]),
   (SEPOLIA, ["https://starknet-sepolia.public.blastapi.io/rpc/v0_6"])]

/-- The RPC pool of a network: RPC_URLS[network], empty for a network the
table does not list. -/
def rpcPool (network : String) : List String :=
  (pyDictGet RPC_URLS network).getD []

/-- Python str.startswith: a character-level test modelled on the
character list of the string. -/
def pyStartswith (s pre : String) : Bool :=
  pre.data.isPrefixOf s.data

/-- get_rpc_url, with random.randint injected as randint. The source
checks, in order: an http-prefixed argument is returned unchanged; for
testnet, sepolia and mainnet a URL is drawn from the network's pool at
index randint(0, len(pool) - 1); sharingan and pragma_testnet have fixed
URLs; devnet and fork_devnet synthesize a localhost URL from the port;
anything else raises ClientException. -/
def get_rpc_url (randint : Nat → Nat → Nat) (network : String)
    (port : Nat) : Except PyError String :=
  if pyStartswith network "http" then Except.ok network
  else if network = TESTNET then
    Except.ok ((rpcPool TESTNET).getD
      (randint 0 ((rpcPool TESTNET).length - 1)) "")
  else if network = SEPOLIA then
    Except.ok ((rpcPool SEPOLIA).getD
      (randint 0 ((rpcPool SEPOLIA).length - 1)) "")
  else if network = MAINNET then
    Except.ok ((rpcPool MAINNET).getD
      (randint 0 ((rpcPool MAINNET).length - 1)) "")
  else if network = SHARINGAN then
    Except.ok "https://sharingan.madara.zone"
  else if network = PRAGMA_TESTNET then
    Except.ok "https://testnet.pragmaoracle.com/rpc"
  else if network = DEVNET then
    Except.ok ("http://127.0.0.1:" ++ toString port ++ "/rpc")
  else if network = FORK_DEVNET then
    Except.ok ("http://127.0.0.1:" ++ toString port ++ "/rpc")
  else
    Except.error (PyError.clientException
      "Must provide a network name or an RPC URL.")

/-- get_rpc_url with its default arguments network=TESTNET, port=5050
applied to an explicit network. -/
def get_rpc_url_default (randint : Nat → Nat → Nat) (network : String) :
    Except PyError String :=
  get_rpc_url randint network 5050

/-- Character codes of the identifier string BTC/USD. -/
def strBTCUSD : List Nat := [66, 84, 67, 47, 85, 83, 68]

/-- Character codes of the identifier string BTC. -/
def strBTC : List Nat := [66, 84, 67]

/-- Character codes of the identifier string USD. -/
def strUSD : List Nat := [85, 83, 68]

/-- Character codes of the string SPOT. -/
def strSPOT : List Nat := [83, 80, 79, 84]

/-- The last network written into CHAIN_IDS with the given chain id, in
the table's construction order. -/
def lastAliasFor (cid : Nat) : Option String :=
  ((CHAIN_IDS.filter fun p => p.2 == cid).getLast?).map Prod.fst

/-- The codec on the empty identifier. -/
theorem str_to_felt_nil : str_to_felt [] = 0 := rfl

/-- Appending one character multiplies the felt by 256 and adds the code. -/
theorem str_to_felt_append (xs : List Nat) (c : Nat) :
    str_to_felt (xs ++ [c]) = str_to_felt xs * 256 + c := by
  simp [str_to_felt]

/-- Decoding the felt 0 yields the empty identifier. -/
theorem felt_to_str_zero : felt_to_str 0 = [] := by
  rw [felt_to_str]
  simp

/-- Peeling the lowest byte off a positive felt. -/
theorem felt_to_str_mul_add (m c : Nat) (hc : c < 256)
    (hpos : 0 < m * 256 + c) :
    felt_to_str (m * 256 + c) = felt_to_str m ++ [c] := by
  rw [felt_to_str]
  rw [dif_neg (Nat.pos_iff_ne_zero.mp hpos)]
  have h1 : (m * 256 + c) / 256 = m := by omega
  have h2 : (m * 256 + c) % 256 = c := by omega
  rw [h1, h2]

/-- Decoding inverts encoding for identifiers whose character codes are
nonzero bytes. -/
theorem felt_to_str_str_to_felt (s : List Nat)
    (hs : ∀ c ∈ s, 1 ≤ c ∧ c ≤ 255) :
    felt_to_str (str_to_felt s) = s := by
  induction s using List.reverseRecOn with
  | nil => simpa [str_to_felt_nil] using felt_to_str_zero
  | append_singleton xs c ih =>
    have hc : 1 ≤ c ∧ c ≤ 255 := hs c (by simp)
    have hxs : ∀ a ∈ xs, 1 ≤ a ∧ a ≤ 255 := fun a ha => hs a (by simp [ha])
    rw [str_to_felt_append,
        felt_to_str_mul_add _ _ (by omega) (by omega),
        ih hxs]

/-- An element of a nonempty list selected by getD at an index within
bounds is a member of the list. -/
theorem getD_mem_of_le {l : List String} {i : Nat} (hne : l ≠ [])
    (hi : i ≤ l.length - 1) : l.getD i "" ∈ l := by
  have hlen : 0 < l.length := List.length_pos.mpr hne
  have hlt : i < l.length := by omega
  rw [List.getD_eq_getElem l _ hlt]
  exact List.getElem_mem hlt

/-- A DataType constructed with an enum-member tag stores that tag as its
data_type and the third argument as its expiration_timestamp. -/
theorem DataType.init_ok_fields (tag : DataTypes) (p e : PyVal)
    (d : DataType) (h : DataType.init (PyVal.vDT tag) p e = Except.ok d) :
    d.data_type = tag ∧ d.expiration_timestamp = e := by
  cases p <;>
    first
      | (injection h with h; subst h; exact ⟨rfl, rfl⟩)
      | exact Except.noConfusion h

/-- Claim C1, counterexample: the spec example DataType("SPOT", "BTC/USD",
None) cannot serialize to a SpotEntry dict because construction itself
raises ValueError: DataTypes is a functional Enum whose members are looked
up by value (1, 2, 3), so the member-name string SPOT is rejected. -/
theorem C1_string_tag_raises :
    DataType.init (PyVal.vStr strSPOT) (PyVal.vStr strBTCUSD) PyVal.vNone =
      Except.error PyError.valueError := rfl

/-- Claim C1 (amended): DataType.serialize is determined by the variant:
every DataType constructed with the DataTypes.SPOT member serializes, for
any expiration_timestamp, to the one-key dict SpotEntry carrying pair_id
(the expiration_timestamp is ignored); with DataTypes.FUTURE to FutureEntry
carrying the tuple (pair_id, expiration_timestamp); with DataTypes.OPTION
to the empty dict. The examples hold with enum-member tags, a string
pair_id being coerced to its felt: serializing the DataType constructed
from (DataTypes.SPOT, "BTC/USD", None) gives the SpotEntry dict at the felt
of BTC/USD, and from (DataTypes.FUTURE, "BTC/USD", 1700000000) the
FutureEntry dict at that felt paired with 1700000000. -/
theorem C1_serialize_by_variant (p e : PyVal) (d : DataType) :
    (DataType.init (PyVal.vDT DataTypes.SPOT) p e = Except.ok d →
      d.serialize = [("SpotEntry", d.pair_id)]) ∧
    (DataType.init (PyVal.vDT DataTypes.FUTURE) p e = Except.ok d →
      d.serialize =
        [("FutureEntry", PyVal.vTuple d.pair_id d.expiration_timestamp)]) ∧
    (DataType.init (PyVal.vDT DataTypes.OPTION) p e = Except.ok d →
      d.serialize = ([] : List (String × PyVal))) ∧
    DataType.init (PyVal.vDT DataTypes.SPOT) (PyVal.vStr strBTCUSD)
      PyVal.vNone =
      Except.ok ⟨DataTypes.SPOT, PyVal.vInt 18669995996566340, PyVal.vNone⟩ ∧
    (DataType.init (PyVal.vDT DataTypes.SPOT) (PyVal.vStr strBTCUSD)
      PyVal.vNone).map DataType.serialize =
      Except.ok [("SpotEntry", PyVal.vInt 18669995996566340)] ∧
    (DataType.init (PyVal.vDT DataTypes.FUTURE) (PyVal.vStr strBTCUSD)
      (PyVal.vInt 1700000000)).map DataType.serialize =
      Except.ok [("FutureEntry",
        PyVal.vTuple (PyVal.vInt 18669995996566340)
          (PyVal.vInt 1700000000))] := by
  refine ⟨fun h => ?_, fun h => ?_, fun h => ?_, rfl, rfl, rfl⟩ <;>
    simp [DataType.serialize, (DataType.init_ok_fields _ _ _ _ h).1]

/-- Claim C1, witness: the SPOT conjunct applied to the DataType built from
(DataTypes.SPOT, "BTC/USD", None). -/
theorem C1_serialize_by_variant_witness :
    (⟨DataTypes.SPOT, PyVal.vInt 18669995996566340, PyVal.vNone⟩ :
      DataType).serialize = [("SpotEntry", PyVal.vInt 18669995996566340)] :=
  (C1_serialize_by_variant (PyVal.vStr strBTCUSD) PyVal.vNone
    ⟨DataTypes.SPOT, PyVal.vInt 18669995996566340, PyVal.vNone⟩).1 rfl

/-- Claim C2: Currency.serialize returns the 5-element sequence
[id, decimals, is_abstract_currency, starknet_address, ethereum_address]
in exactly that order and construction never fails; a string id is stored
as its felt, an integer 0 or 1 is_abstract_currency argument is coerced
to the boolean false or true, and omitted (None) addresses become 0. In
particular Currency("BTC", 8, 0) with omitted addresses serializes to a
5-element sequence with third element false and 4th and 5th elements 0. -/
theorem C2_currency_serialize :
    (∀ c : Currency, c.serialize =
      [c.id, c.decimals, c.is_abstract_currency, c.starknet_address,
       c.ethereum_address]) ∧
    (∀ id_ d iac sa ea, ∃ c,
      Currency.init id_ d iac sa ea = Except.ok c) ∧
    (∀ s d iac sa ea c,
      Currency.init (PyVal.vStr s) d iac sa ea = Except.ok c →
      c.id = PyVal.vInt (str_to_felt s)) ∧
    (∀ id_ d sa ea c,
      Currency.init id_ d (PyVal.vInt 0) sa ea = Except.ok c →
      c.is_abstract_currency = PyVal.vBool false) ∧
    (∀ id_ d sa ea c,
      Currency.init id_ d (PyVal.vInt 1) sa ea = Except.ok c →
      c.is_abstract_currency = PyVal.vBool true) ∧
    (∀ id_ d iac c,
      Currency.init id_ d iac PyVal.vNone PyVal.vNone = Except.ok c →
      c.starknet_address = PyVal.vInt 0 ∧
      c.ethereum_address = PyVal.vInt 0) ∧
    Currency.init (PyVal.vStr strBTC) (PyVal.vInt 8) (PyVal.vInt 0)
      PyVal.vNone PyVal.vNone =
      Except.ok ⟨PyVal.vInt 4346947, PyVal.vInt 8, PyVal.vBool false,
        PyVal.vInt 0, PyVal.vInt 0⟩ ∧
    (Currency.init (PyVal.vStr strBTC) (PyVal.vInt 8) (PyVal.vInt 0)
      PyVal.vNone PyVal.vNone).map Currency.serialize =
      Except.ok [PyVal.vInt 4346947, PyVal.vInt 8, PyVal.vBool false,
        PyVal.vInt 0, PyVal.vInt 0] := by
  refine ⟨fun c => rfl, fun id_ d iac sa ea => ⟨_, rfl⟩, ?_, ?_, ?_, ?_,
    rfl, rfl⟩
  · intro s d iac sa ea c h
    injection h with h
    subst h
    rfl
  · intro id_ d sa ea c h
    injection h with h
    subst h
    rfl
  · intro id_ d sa ea c h
    injection h with h
    subst h
    rfl
  · intro id_ d iac c h
    injection h with h
    subst h
    exact ⟨rfl, rfl⟩

/-- Claim C2, witness: the serialization-order and string-id conjuncts at
the example Currency("BTC", 8, 0) with omitted addresses. -/
theorem C2_currency_serialize_witness :
    Currency.serialize ⟨PyVal.vInt 4346947, PyVal.vInt 8, PyVal.vBool false,
      PyVal.vInt 0, PyVal.vInt 0⟩ =
      [PyVal.vInt 4346947, PyVal.vInt 8, PyVal.vBool false, PyVal.vInt 0,
       PyVal.vInt 0] ∧
    (⟨PyVal.vInt 4346947, PyVal.vInt 8, PyVal.vBool false, PyVal.vInt 0,
      PyVal.vInt 0⟩ : Currency).id = PyVal.vInt (str_to_felt strBTC) :=
  ⟨(C2_currency_serialize).1 _,
   (C2_currency_serialize).2.2.1 strBTC (PyVal.vInt 8) (PyVal.vInt 0)
     PyVal.vNone PyVal.vNone _ rfl⟩

/-- Claim C3, counterexample: constructing a Currency whose id is neither a
string nor an integer (an object of any other type) succeeds without any
error: Currency.__init__ performs no isinstance check beyond str and stores
the id verbatim, so the claimed type/coercion failure never happens. -/
theorem C3_non_str_int_id_accepted :
    Currency.init PyVal.vObj (PyVal.vInt 8) (PyVal.vBool false)
      PyVal.vNone PyVal.vNone =
      Except.ok ⟨PyVal.vObj, PyVal.vInt 8, PyVal.vBool false, PyVal.vInt 0,
        PyVal.vInt 0⟩ := rfl

/-- Claim C3 (amended): Currency construction never raises a type/coercion
error: for every id it returns ok synchronously; a string id is converted
to its felt by the codec, and an id of any other kind (integer or
otherwise) is stored unchanged with no type check performed. -/
theorem C3_currency_init_never_raises (id_ d iac sa ea : PyVal) :
    (∃ c, Currency.init id_ d iac sa ea = Except.ok c) ∧
    (∀ s, id_ = PyVal.vStr s → ∃ c,
      Currency.init id_ d iac sa ea = Except.ok c ∧
      c.id = PyVal.vInt (str_to_felt s)) ∧
    ((∀ s, id_ ≠ PyVal.vStr s) → ∃ c,
      Currency.init id_ d iac sa ea = Except.ok c ∧ c.id = id_) := by
  refine ⟨⟨_, rfl⟩, ?_, ?_⟩
  · intro s hs
    subst hs
    exact ⟨_, rfl, rfl⟩
  · intro hns
    refine ⟨_, rfl, ?_⟩
    show coerceStrId id_ = id_
    cases id_ with
    | vStr s => exact ((hns s) rfl).elim
    | _ => rfl

/-- Claim C3, witness: the non-string conjunct at an id of another kind. -/
theorem C3_currency_init_never_raises_witness :
    ∃ c, Currency.init PyVal.vObj (PyVal.vInt 8) (PyVal.vBool false)
      PyVal.vNone PyVal.vNone = Except.ok c ∧ c.id = PyVal.vObj :=
  (C3_currency_init_never_raises PyVal.vObj (PyVal.vInt 8)
    (PyVal.vBool false) PyVal.vNone PyVal.vNone).2.2
    (fun s h => PyVal.noConfusion h)

/-- Claim C4: get_rpc_url returns its network argument unchanged whenever
it starts with the http scheme marker; it raises ClientException with the
message about providing a network name or RPC URL exactly when the argument
neither starts with http nor equals one of the seven supported network
names; and for every supported name it returns some URL without raising. -/
theorem C4_get_rpc_url_spec (randint : Nat → Nat → Nat)
    (network : String) (port : Nat) :
    (pyStartswith network "http" = true →
      get_rpc_url randint network port = Except.ok network) ∧
    (pyStartswith network "http" = false → network ∉ supportedNetworks →
      get_rpc_url randint network port = Except.error
        (PyError.clientException
          "Must provide a network name or an RPC URL.")) ∧
    (network ∈ supportedNetworks →
      ∃ u, get_rpc_url randint network port = Except.ok u) := by
  refine ⟨?_, ?_, ?_⟩
  · intro h
    simp [get_rpc_url, h]
  · intro h hn
    simp [supportedNetworks, DEVNET, SHARINGAN, TESTNET, MAINNET,
      PRAGMA_TESTNET, FORK_DEVNET, SEPOLIA] at hn
    obtain ⟨h1, h2, h3, h4, h5, h6, h7⟩ := hn
    simp [get_rpc_url, h, TESTNET, SEPOLIA, MAINNET, SHARINGAN,
      PRAGMA_TESTNET, DEVNET, FORK_DEVNET, h1, h2, h3, h4, h5, h6, h7]
  · intro hn
    simp [supportedNetworks, DEVNET, SHARINGAN, TESTNET, MAINNET,
      PRAGMA_TESTNET, FORK_DEVNET, SEPOLIA] at hn
    rcases hn with rfl | rfl | rfl | rfl | rfl | rfl | rfl <;>
      exact ⟨_, rfl⟩

/-- Claim C4, witness: an unknown name raises the configuration error, an
http URL is returned unchanged, and a supported name resolves. -/
theorem C4_get_rpc_url_spec_witness :
    get_rpc_url (fun a b => a) "not-a-network" 5050 = Except.error
      (PyError.clientException
        "Must provide a network name or an RPC URL.") ∧
    get_rpc_url (fun a b => a) "http://my-node:9545" 5050 =
      Except.ok "http://my-node:9545" ∧
    (∃ u, get_rpc_url (fun a b => a) "sharingan" 5050 = Except.ok u) :=
  ⟨(C4_get_rpc_url_spec (fun a b => a) "not-a-network" 5050).2.1
      (by decide) (by decide),
   (C4_get_rpc_url_spec (fun a b => a) "http://my-node:9545" 5050).1
      (by decide),
   (C4_get_rpc_url_spec (fun a b => a) "sharingan" 5050).2.2 (by decide)⟩

/-- Claim C5: for the pool-backed networks testnet, sepolia and mainnet,
whenever the random source honours the randint contract (a value between
the given bounds), every value get_rpc_url returns is a member of that
network's RPC_URLS pool, and conversely every URL in the pool is returned
under some admissible random draw, so no configured URL is unreachable; in
particular get_rpc_url on testnet always returns a URL from the TESTNET
pool. Uniformity itself is the contract of the injected random.randint. -/
theorem C5_rpc_pool_selection (randint : Nat → Nat → Nat) (port : Nat)
    (hr : ∀ b, randint 0 b ≤ b) :
    (∀ network ∈ [TESTNET, SEPOLIA, MAINNET], ∃ u,
      get_rpc_url randint network port = Except.ok u ∧
      u ∈ rpcPool network) ∧
    (∀ network ∈ [TESTNET, SEPOLIA, MAINNET], ∀ u ∈ rpcPool network,
      ∃ r : Nat → Nat → Nat,
        get_rpc_url r network port = Except.ok u) := by
  constructor
  · intro network hn
    fin_cases hn <;>
      exact ⟨_, rfl, getD_mem_of_le (by decide) (hr _)⟩
  · intro network hn
    fin_cases hn <;> intro u hu
    · have : u = "https://starknet-testnet.public.blastapi.io/rpc/v0_6" := by
        simpa [rpcPool, pyDictGet, RPC_URLS, TESTNET, MAINNET, SEPOLIA]
          using hu
      subst this
      exact ⟨fun a b => 0, rfl⟩
    · have : u = "https://starknet-sepolia.public.blastapi.io/rpc/v0_6" := by
        simpa [rpcPool, pyDictGet, RPC_URLS, TESTNET, MAINNET, SEPOLIA]
          using hu
      subst this
      exact ⟨fun a b => 0, rfl⟩
    · have : u = "https://starknet-mainnet.public.blastapi.io/rpc/v0_6" := by
        simpa [rpcPool, pyDictGet, RPC_URLS, TESTNET, MAINNET, SEPOLIA]
          using hu
      subst this
      exact ⟨fun a b => 0, rfl⟩

/-- Claim C5, witness: with an in-contract random source, the testnet
resolution lands in the TESTNET pool. -/
theorem C5_rpc_pool_selection_witness :
    ∃ u, get_rpc_url (fun a b => a) TESTNET 5050 = Except.ok u ∧
      u ∈ rpcPool TESTNET :=
  (C5_rpc_pool_selection (fun a b => a) 5050 (fun b => Nat.zero_le b)).1
    TESTNET (by decide)

/-- Claim C6: for every supported network name the chain-id table and its
inverse are mutually consistent: the inverse maps the network's chain id
to the last network written with that id in the table's construction order
(last-writer-wins), and when the chain id is not aliased - it has exactly
one writer - the inverse maps it back to the network itself. -/
theorem C6_chain_id_inverse (n : String) (h : n ∈ supportedNetworks) :
    ∃ cid, pyDictGet CHAIN_IDS n = some cid ∧
      pyDictGet CHAIN_ID_TO_NETWORK cid = lastAliasFor cid ∧
      ((CHAIN_IDS.filter fun p => p.2 == cid).length = 1 →
        pyDictGet CHAIN_ID_TO_NETWORK cid = some n) := by
  fin_cases h <;> exact ⟨_, rfl, rfl, by decide⟩

/-- Claim C6, witness: the unaliased mainnet id maps back to mainnet, and
the devnet id (aliased by four networks) maps to its last writer. -/
theorem C6_chain_id_inverse_witness :
    (∃ cid, pyDictGet CHAIN_IDS MAINNET = some cid ∧
      pyDictGet CHAIN_ID_TO_NETWORK cid = lastAliasFor cid ∧
      ((CHAIN_IDS.filter fun p => p.2 == cid).length = 1 →
        pyDictGet CHAIN_ID_TO_NETWORK cid = some MAINNET)) ∧
    (∃ cid, pyDictGet CHAIN_IDS DEVNET = some cid ∧
      pyDictGet CHAIN_ID_TO_NETWORK cid = lastAliasFor cid ∧
      ((CHAIN_IDS.filter fun p => p.2 == cid).length = 1 →
        pyDictGet CHAIN_ID_TO_NETWORK cid = some DEVNET)) :=
  ⟨C6_chain_id_inverse MAINNET (by decide),
   C6_chain_id_inverse DEVNET (by decide)⟩

/-- Claim C7, counterexample: serialize keys the dict by the variant's
value, not its name: for AggregationMode.AVERAGE the only key is Mean,
while the variant's name is AVERAGE, so the claimed name-keyed mapping is
wrong for this variant. -/
theorem C7_key_is_value_not_name :
    AggregationMode.serialize AggregationMode.AVERAGE =
      [("Mean", PyVal.vNone)] ∧
    AggregationMode.name AggregationMode.AVERAGE = "AVERAGE" ∧
    ("Mean" : String) ≠ "AVERAGE" := by
  refine ⟨rfl, rfl, by decide⟩

/-- Claim C7 (amended): for every variant of AggregationMode and of
RequestStatus, serialize returns the single-key tagged mapping keyed by
the variant's value string with null payload (for RequestStatus the value
equals the name, for AggregationMode it differs, e.g. Mean for AVERAGE);
in particular AggregationMode.MEDIAN serializes to the Median-keyed
mapping. -/
theorem C7_enum_serialize :
    (∀ m : AggregationMode, m.serialize = [(m.value, PyVal.vNone)]) ∧
    (∀ r : RequestStatus,
      r.serialize = [(r.value, PyVal.vNone)] ∧ r.value = r.name) ∧
    AggregationMode.serialize AggregationMode.MEDIAN =
      [("Median", PyVal.vNone)] := by
  refine ⟨fun m => ?_, fun r => ?_, rfl⟩
  · cases m <;> rfl
  · cases r <;> exact ⟨rfl, rfl⟩

/-- Claim C8: for devnet and fork_devnet and every port p, get_rpc_url
returns exactly the localhost URL synthesized from p, the port defaults
to 5050 when omitted, and in particular port 6060 yields the URL
http://127.0.0.1:6060/rpc. -/
theorem C8_devnet_url (randint : Nat → Nat → Nat) (port : Nat) :
    get_rpc_url randint DEVNET port =
      Except.ok ("http://127.0.0.1:" ++ toString port ++ "/rpc") ∧
    get_rpc_url randint FORK_DEVNET port =
      Except.ok ("http://127.0.0.1:" ++ toString port ++ "/rpc") ∧
    get_rpc_url_default randint DEVNET = get_rpc_url randint DEVNET 5050 ∧
    get_rpc_url randint DEVNET 6060 =
      Except.ok "http://127.0.0.1:6060/rpc" :=
  ⟨rfl, rfl, rfl, rfl⟩

/-- Claim C9: the identifier codec round-trips: decoding the felt encoded
from any identifier over the supported ASCII alphabet yields the
identifier back, and the encoding is total (it is a function) and
injective over that alphabet. -/
theorem C9_codec_roundtrip (s t : List Nat)
    (hs : ∀ c ∈ s, 1 ≤ c ∧ c ≤ 127) (ht : ∀ c ∈ t, 1 ≤ c ∧ c ≤ 127) :
    felt_to_str (str_to_felt s) = s ∧
    (str_to_felt s = str_to_felt t → s = t) := by
  have rs := felt_to_str_str_to_felt s
    (fun c hc => ⟨(hs c hc).1, le_trans (hs c hc).2 (by norm_num)⟩)
  have rt := felt_to_str_str_to_felt t
    (fun c hc => ⟨(ht c hc).1, le_trans (ht c hc).2 (by norm_num)⟩)
  exact ⟨rs, fun h => by rw [← rs, ← rt, h]⟩

/-- Claim C9, witness: the round-trip and injectivity at the identifiers
BTC/USD and USD. -/
theorem C9_codec_roundtrip_witness :
    felt_to_str (str_to_felt strBTCUSD) = strBTCUSD ∧
    (str_to_felt strBTCUSD = str_to_felt strUSD → strBTCUSD = strUSD) :=
  C9_codec_roundtrip strBTCUSD strUSD (by decide) (by decide)

/-- Claim C10: for every Currency, Pair and PoolKey, the wire and debug
representations agree field for field: serialize equals the values of
to_dict taken in the declared field order, and to_dict lists exactly the
declared field names in that order, so neither view can drift from the
other. -/
theorem C10_serialize_to_dict_agree :
    (∀ c : Currency, c.serialize = c.to_dict.map Prod.snd ∧
      c.to_dict.map Prod.fst = ["id", "decimals", "is_abstract_currency",
        "starknet_address", "ethereum_address"]) ∧
    (∀ p : Pair, p.serialize = p.to_dict.map Prod.snd ∧
      p.to_dict.map Prod.fst =
        ["id", "quote_currency_id", "base_currency_id"]) ∧
    (∀ k : PoolKey, k.serialize = k.to_dict.map Prod.snd ∧
      k.to_dict.map Prod.fst =
        ["token_0", "token_1", "fee", "tick_spacing", "extension"]) :=
  ⟨fun c => ⟨rfl, rfl⟩, fun p => ⟨rfl, rfl⟩, fun k => ⟨rfl, rfl⟩⟩

end Pragma
